import Mathlib

/-!
Shallow embedding of `src/glue/src/lib.rs` (android-rs-glue): the portable
event type, the subscriber registry operations (`add_sender`, the `send_event`
fan-out inside `inputs_callback`), the input translator `inputs_callback`,
the command dispatcher `commands_callback`, the window accessor
`get_native_window`, and the asset loader `load_asset`.

The `ffi` module of the crate (raw platform declarations and constants) is
declared in `lib.rs` but its source file is not part of the repository
snapshot; its constants are modelled from the spec, using the platform's
standard values, and marked as such below.
-/

namespace AndroidGlue

/-- Portable event, from `pub enum Event` in `lib.rs`: `EventUp`, `EventDown`,
`EventMove(i32, i32)`. Coordinates are `Int` (the mathematical value of the
Rust `i32`, which stays far below the overflow bound here). -/
inductive Event where
  | EventUp : Event
  | EventDown : Event
  | EventMove : Int → Int → Event
deriving DecidableEq, Repr

/-- One subscriber endpoint: the sending half of an mpsc channel stored in the
registry (`Context.senders`). `connected` models whether the receiving half is
still alive (a `send` on a disconnected channel fails and is ignored by the
source); `received` is the queue of events delivered so far. -/
structure Endpoint where
  connected : Bool
  received : List Event
deriving DecidableEq, Repr

/-- Effect of `sender.send(event)` with the result discarded, as in the body of
`send_event` in `lib.rs`: a connected endpoint enqueues the event, a
disconnected endpoint is left unchanged (the `Err` is dropped). -/
def sendTo (e : Event) (ep : Endpoint) : Endpoint :=
  if ep.connected then { ep with received := ep.received ++ [e] } else ep

/-- The `send_event` helper inside `inputs_callback`: lock the registry and
send the event to every sender in order, ignoring per-endpoint failures. -/
def send_event (e : Event) (senders : List Endpoint) : List Endpoint :=
  senders.map (sendTo e)

/-- `add_sender`: push a new sender at the end of the registry. -/
def add_sender (senders : List Endpoint) (ep : Endpoint) : List Endpoint :=
  senders ++ [ep]

/-- Modelled from the spec: `ffi::AMOTION_EVENT_ACTION_MASK` (the `ffi` module
file is absent from the snapshot); standard platform value `0xff`. -/
def AMOTION_EVENT_ACTION_MASK : Nat := 0xff

/-- Modelled from the spec: `ffi::AMOTION_EVENT_ACTION_DOWN`, value 0. -/
def AMOTION_EVENT_ACTION_DOWN : Nat := 0

/-- Modelled from the spec: `ffi::AMOTION_EVENT_ACTION_UP`, value 1. -/
def AMOTION_EVENT_ACTION_UP : Nat := 1

/-- Modelled from the spec: `ffi::AMOTION_EVENT_ACTION_MOVE`, value 2. -/
def AMOTION_EVENT_ACTION_MOVE : Nat := 2

/-- Modelled from the spec: `ffi::AMOTION_EVENT_ACTION_CANCEL`, value 3. -/
def AMOTION_EVENT_ACTION_CANCEL : Nat := 3

/-- Modelled from the spec: `ffi::AMOTION_EVENT_ACTION_OUTSIDE`, value 4. -/
def AMOTION_EVENT_ACTION_OUTSIDE : Nat := 4

/-- Modelled from the spec: `ffi::AMOTION_EVENT_ACTION_POINTER_DOWN`, value 5. -/
def AMOTION_EVENT_ACTION_POINTER_DOWN : Nat := 5

/-- Modelled from the spec: `ffi::AMOTION_EVENT_ACTION_POINTER_UP`, value 6. -/
def AMOTION_EVENT_ACTION_POINTER_UP : Nat := 6

/-- A native motion event as observed by `inputs_callback`: the raw action
word returned by `AMotionEvent_getAction` (a non-negative `i32` bit pattern,
modelled as `Nat`), and the exact values of the C floats returned by
`AMotionEvent_getX`/`AMotionEvent_getY` at pointer index 0, modelled as
rationals (every finite float value is rational). -/
structure AInputEvent where
  action : Nat
  x : ℚ
  y : ℚ

/-- The Rust numeric cast `f as i32` applied to a finite, in-range float value
`q`: truncation toward zero, i.e. the integer quotient of numerator by
denominator with T-division. -/
def i32cast (q : ℚ) : Int := q.num.tdiv q.den

/-- The `get_xy` helper inside `inputs_callback`: sample x and y of pointer
index 0 and cast each to `i32`. -/
def get_xy (event : AInputEvent) : Int × Int :=
  (i32cast event.x, i32cast event.y)

/-- The input translator `inputs_callback`, as a pure function from the native
event to the list of events it publishes (in publication order) together with
its `int32_t` return status. The branch structure mirrors the `match` on
`action & AMOTION_EVENT_ACTION_MASK` in `lib.rs`. -/
def inputs_callback (event : AInputEvent) : List Event × Int :=
  let action_code := event.action &&& AMOTION_EVENT_ACTION_MASK
  if action_code = AMOTION_EVENT_ACTION_UP ∨
     action_code = AMOTION_EVENT_ACTION_OUTSIDE ∨
     action_code = AMOTION_EVENT_ACTION_CANCEL ∨
     action_code = AMOTION_EVENT_ACTION_POINTER_UP then
    ([Event.EventUp], 0)
  else if action_code = AMOTION_EVENT_ACTION_DOWN ∨
          action_code = AMOTION_EVENT_ACTION_POINTER_DOWN then
    ([Event.EventMove (get_xy event).1 (get_xy event).2, Event.EventDown], 0)
  else
    ([Event.EventMove (get_xy event).1 (get_xy event).2], 0)

/-- Running `inputs_callback` against a registry: every published event is
fanned out by `send_event` in publication order. -/
def inputs_callback_run (event : AInputEvent) (senders : List Endpoint) :
    List Endpoint :=
  (inputs_callback event).1.foldl (fun s e => send_event e s) senders

/-- Modelled from the spec: `ffi::APP_CMD_INIT_WINDOW`, standard value 1. -/
def APP_CMD_INIT_WINDOW : Int := 1

/-- Modelled from the spec: `ffi::APP_CMD_TERM_WINDOW`, standard value 2. -/
def APP_CMD_TERM_WINDOW : Int := 2

/-- Modelled from the spec: `ffi::APP_CMD_GAINED_FOCUS`, standard value 6. -/
def APP_CMD_GAINED_FOCUS : Int := 6

/-- Modelled from the spec: `ffi::APP_CMD_LOST_FOCUS`, standard value 7. -/
def APP_CMD_LOST_FOCUS : Int := 7

/-- Modelled from the spec: `ffi::APP_CMD_SAVE_STATE`, standard value 12. -/
def APP_CMD_SAVE_STATE : Int := 12

/-- The command dispatcher `commands_callback`, as a pure function from the
command code and the current registry to the pair (events published, registry
afterwards). Each of the five recognized codes has its own branch, mirroring
the `match` arms in `lib.rs`; every arm (and the wildcard) is an empty body,
so each branch publishes nothing and leaves the registry as it is. -/
def commands_callback (command : Int) (senders : List Endpoint) :
    List Event × List Endpoint :=
  if command = APP_CMD_INIT_WINDOW then ([], senders)
  else if command = APP_CMD_SAVE_STATE then ([], senders)
  else if command = APP_CMD_TERM_WINDOW then ([], senders)
  else if command = APP_CMD_GAINED_FOCUS then ([], senders)
  else if command = APP_CMD_LOST_FOCUS then ([], senders)
  else ([], senders)

/-- Outcome of `get_native_window` after a bounded number of loop iterations:
`panicked` models the `panic!` on an absent bridge state, `returned w` a
normal return with the non-null handle `w`, `spinning` that the loop is still
polling (the fuel ran out with every observed field null). -/
inductive WindowResult where
  | panicked : WindowResult
  | returned : Nat → WindowResult
  | spinning : WindowResult
deriving DecidableEq, Repr

/-- The polling loop of `get_native_window`: at iteration `i` it reads the
snapshot `obs i` of the `(*ANDROID_APP).window` field (written asynchronously
by the platform; `none` models a null pointer, `some w` a non-null handle),
returns the handle when non-null, and otherwise sleeps and retries. `fuel`
bounds how many iterations we unroll. -/
def window_loop (obs : Nat → Option Nat) : Nat → Nat → WindowResult
  | 0, _ => WindowResult.spinning
  | fuel + 1, i =>
    match obs i with
    | some w => WindowResult.returned w
    | none => window_loop obs fuel (i + 1)

/-- `get_native_window`: panic if the bridge state `ANDROID_APP` is absent
(null), otherwise poll the window field until it is non-null and return it.
`android_app` is `none` when the static was never written by bootstrap, and
otherwise carries the sequence of window-field snapshots the loop observes. -/
def get_native_window (android_app : Option (Nat → Option Nat)) (fuel : Nat) :
    WindowResult :=
  match android_app with
  | none => WindowResult.panicked
  | some obs => window_loop obs fuel 0

/-- The two typed failures of `load_asset`, from `pub enum AssetError`. -/
inductive AssetError where
  | AssetMissing : AssetError
  | EmptyBuffer : AssetError
deriving DecidableEq, Repr

/-- A native asset as seen through the platform calls `load_asset` makes:
`AAsset_getLength` returns `len`; `AAsset_getBuffer` returns null (`none`) or
a pointer to the backing bytes (`some buff`, the byte contents of the backing
memory, of which the first `len` bytes are the asset's contents). -/
structure Asset where
  len : Nat
  buff : Option (List Nat)
deriving DecidableEq, Repr

/-- One call into the platform's asset API, recorded in order so that the
lifetime of the native handle (open ... close) is observable. -/
inductive AssetOp where
  | openAsset : String → AssetOp
  | getLength : AssetOp
  | getBuffer : AssetOp
  | close : AssetOp
deriving DecidableEq, Repr

/-- `load_asset`: open the named asset through the asset manager (modelled as
the map `assetManager` from names to assets, `none` when `AAssetManager_open`
returns null); on a failed open return `AssetMissing`; otherwise the
`AssetCloser` scope guard is armed, the length and buffer are read, a null
buffer returns `EmptyBuffer`, and a non-null buffer is copied
(`Vec::from_raw_buf(buff, len)`, i.e. the first `len` backing bytes) into an
owned vector. The second component records every platform call in order; the
guard's `AAsset_close` runs exactly when the scope armed after a successful
open is left, on both the `EmptyBuffer` and the success path. -/
def load_asset (assetManager : String → Option Asset) (filename : String) :
    Except AssetError (List Nat) × List AssetOp :=
  match assetManager filename with
  | none => (Except.error AssetError.AssetMissing, [AssetOp.openAsset filename])
  | some asset =>
    match asset.buff with
    | none =>
      (Except.error AssetError.EmptyBuffer,
       [AssetOp.openAsset filename, AssetOp.getLength, AssetOp.getBuffer,
        AssetOp.close])
    | some buff =>
      (Except.ok (buff.take asset.len),
       [AssetOp.openAsset filename, AssetOp.getLength, AssetOp.getBuffer,
        AssetOp.close])

/-- Claim C2: for every native input event whose masked action code is in the
press set (down, pointer-down), `inputs_callback` publishes exactly two events,
in the fixed order pointer-moved(x, y) with the sampled primary-pointer
coordinates, then pointer-pressed, for any sampled coordinates. -/
theorem claim_C2 (ev : AInputEvent)
    (h : ev.action &&& AMOTION_EVENT_ACTION_MASK = AMOTION_EVENT_ACTION_DOWN ∨
         ev.action &&& AMOTION_EVENT_ACTION_MASK = AMOTION_EVENT_ACTION_POINTER_DOWN) :
    inputs_callback ev =
      ([Event.EventMove (get_xy ev).1 (get_xy ev).2, Event.EventDown], 0) := by
  rcases h with h | h <;>
    simp [inputs_callback, h, AMOTION_EVENT_ACTION_DOWN, AMOTION_EVENT_ACTION_UP,
      AMOTION_EVENT_ACTION_OUTSIDE, AMOTION_EVENT_ACTION_CANCEL,
      AMOTION_EVENT_ACTION_POINTER_UP, AMOTION_EVENT_ACTION_POINTER_DOWN]

/-- Witness for C2 at a concrete pointer-down event (action word 0x105 masks
to the pointer-down code 5) with coordinates (7, -2). -/
theorem claim_C2_witness :
    inputs_callback ⟨0x105, 7, -2⟩ =
      ([Event.EventMove 7 (-2), Event.EventDown], 0) := by
  have h := claim_C2 ⟨0x105, 7, -2⟩ (by right; decide)
  rw [h]; decide

/-- Claim C3: for every native input event whose masked action code is in the
release set (up, outside, cancel, pointer-up), `inputs_callback` publishes
exactly one pointer-released event and no pointer-moved event, and its output
is the same whatever the coordinates are (no coordinate extraction). -/
theorem claim_C3 (ev : AInputEvent)
    (h : ev.action &&& AMOTION_EVENT_ACTION_MASK = AMOTION_EVENT_ACTION_UP ∨
         ev.action &&& AMOTION_EVENT_ACTION_MASK = AMOTION_EVENT_ACTION_OUTSIDE ∨
         ev.action &&& AMOTION_EVENT_ACTION_MASK = AMOTION_EVENT_ACTION_CANCEL ∨
         ev.action &&& AMOTION_EVENT_ACTION_MASK = AMOTION_EVENT_ACTION_POINTER_UP) :
    (∀ x y : ℚ, inputs_callback ⟨ev.action, x, y⟩ = ([Event.EventUp], 0)) ∧
    inputs_callback ev = ([Event.EventUp], 0) := by
  constructor
  · intro x y
    rcases h with h | h | h | h <;>
      simp [inputs_callback, h]
  · rcases h with h | h | h | h <;>
      simp [inputs_callback, h]

/-- Claim C4: for every native input event whose masked action code is neither
in the press set nor in the release set (plain motion included),
`inputs_callback` publishes exactly one pointer-moved event carrying the
sampled coordinates, and returns status 0. -/
theorem claim_C4 (ev : AInputEvent)
    (h : ev.action &&& AMOTION_EVENT_ACTION_MASK ≠ AMOTION_EVENT_ACTION_UP ∧
         ev.action &&& AMOTION_EVENT_ACTION_MASK ≠ AMOTION_EVENT_ACTION_OUTSIDE ∧
         ev.action &&& AMOTION_EVENT_ACTION_MASK ≠ AMOTION_EVENT_ACTION_CANCEL ∧
         ev.action &&& AMOTION_EVENT_ACTION_MASK ≠ AMOTION_EVENT_ACTION_POINTER_UP ∧
         ev.action &&& AMOTION_EVENT_ACTION_MASK ≠ AMOTION_EVENT_ACTION_DOWN ∧
         ev.action &&& AMOTION_EVENT_ACTION_MASK ≠ AMOTION_EVENT_ACTION_POINTER_DOWN) :
    inputs_callback ev =
      ([Event.EventMove (i32cast ev.x) (i32cast ev.y)], 0) := by
  obtain ⟨h1, h2, h3, h4, h5, h6⟩ := h
  simp [inputs_callback, h1, h2, h3, h4, h5, h6, get_xy]

/-- Claim C9: for every lifecycle command code, recognized or not,
`commands_callback` publishes no event and leaves the registry unchanged. -/
theorem claim_C9 (command : Int) (senders : List Endpoint) :
    commands_callback command senders = ([], senders) := by
  unfold commands_callback
  split <;> [skip; split] <;> [skip; skip; split] <;> first | rfl | (split <;> first | rfl | (split <;> rfl))

/-- Claim C10: the coordinate conversion of `get_xy` is the plain numeric
cast, truncation toward zero: it agrees with floor on non-negative values and
with ceiling on negative ones (not rounding), so 3.9 becomes 3 and -0.5
(written -1/2) becomes 0. -/
theorem claim_C10 :
    (∀ ev : AInputEvent, get_xy ev = (i32cast ev.x, i32cast ev.y)) ∧
    (∀ q : ℚ, i32cast q = if 0 ≤ q then ⌊q⌋ else ⌈q⌉) ∧
    i32cast ((39 : ℚ) / 10) = 3 ∧ i32cast ((-1 : ℚ) / 2) = 0 := by
  have key : ∀ q : ℚ, i32cast q = if 0 ≤ q then ⌊q⌋ else ⌈q⌉ := by
    intro q
    by_cases hq : 0 ≤ q
    · rw [if_pos hq, Rat.floor_def, i32cast,
        Int.tdiv_eq_ediv (Rat.num_nonneg.mpr hq) (by positivity)]
    · rw [if_neg hq, i32cast]
      have hnum : q.num < 0 := by
        by_contra hc
        exact hq (Rat.num_nonneg.mp (by omega))
      have h1 : ⌈q⌉ = -⌊-q⌋ := by
        rw [Int.floor_neg]; ring
      rw [h1, Rat.floor_def, Rat.num_neg_eq_neg_num, Rat.den_neg_eq_den]
      have h2 : q.num.tdiv q.den = -((-q.num).tdiv q.den) := by
        rw [Int.neg_tdiv]; ring
      rw [h2, Int.tdiv_eq_ediv (by omega) (by positivity)]
  refine ⟨fun ev => rfl, key, ?_, ?_⟩
  · rw [key, if_pos (by norm_num)]
    rw [show ((39 : ℚ) / 10) = (3.9 : ℚ) by norm_num]
    rw [Int.floor_eq_iff]
    constructor <;> norm_num
  · rw [key, if_neg (by norm_num)]
    rw [Int.ceil_eq_iff]
    constructor <;> norm_num

/-- Helper for C5: the polling loop can only end in `returned` or `spinning`,
never in `panicked`. -/
theorem window_loop_no_panic (obs : Nat → Option Nat) :
    ∀ fuel i, window_loop obs fuel i ≠ WindowResult.panicked := by
  intro fuel
  induction fuel with
  | zero => intro i; simp [window_loop]
  | succ n ih =>
    intro i
    simp only [window_loop]
    cases h : obs i with
    | some w => simp
    | none => exact ih (i + 1)

/-- Helper for C5: when the polling loop returns a handle, that handle is the
first non-null snapshot of the window field at or after the start index. -/
theorem window_loop_returned (obs : Nat → Option Nat) :
    ∀ fuel k w, window_loop obs fuel k = WindowResult.returned w →
      ∃ i, k ≤ i ∧ obs i = some w ∧ ∀ j, k ≤ j → j < i → obs j = none := by
  intro fuel
  induction fuel with
  | zero => intro k w h; simp [window_loop] at h
  | succ n ih =>
    intro k w h
    simp only [window_loop] at h
    cases hk : obs k with
    | some v =>
      rw [hk] at h
      simp at h
      exact ⟨k, le_refl k, by rw [hk, h], fun j hj1 hj2 => absurd (lt_of_le_of_lt hj1 hj2) (lt_irrefl k)⟩
    | none =>
      rw [hk] at h
      obtain ⟨i, hi1, hi2, hi3⟩ := ih (k + 1) w h
      refine ⟨i, by omega, hi2, fun j hj1 hj2 => ?_⟩
      rcases Nat.eq_or_lt_of_le hj1 with rfl | hlt
      · exact hk
      · exact hi3 j hlt hj2

/-- Claim C5: `get_native_window` panics exactly when the bridge state is
absent; with the bridge state present it never panics, and whenever it returns
a handle, that handle is the first non-null snapshot of the window field (so
it never returns while the field is null). -/
theorem claim_C5 :
    (∀ fuel, get_native_window none fuel = WindowResult.panicked) ∧
    (∀ obs fuel, get_native_window (some obs) fuel ≠ WindowResult.panicked) ∧
    (∀ obs fuel w, get_native_window (some obs) fuel = WindowResult.returned w →
      ∃ i, obs i = some w ∧ ∀ j, j < i → obs j = none) := by
  refine ⟨fun fuel => rfl, fun obs fuel => window_loop_no_panic obs fuel 0, ?_⟩
  intro obs fuel w h
  obtain ⟨i, _, hi2, hi3⟩ := window_loop_returned obs fuel 0 w h
  exact ⟨i, hi2, fun j hj => hi3 j (Nat.zero_le j) hj⟩

/-- Window-field snapshots for the C5 witness: null for two polls, then the
handle 7. -/
def windowObs : Nat → Option Nat := fun i => if i = 2 then some 7 else none

/-- Witness for C5: on the concrete snapshot sequence `windowObs` with fuel 5
the accessor returns handle 7, observed first at poll index 2. -/
theorem claim_C5_witness :
    ∃ i, windowObs i = some 7 ∧ ∀ j, j < i → windowObs j = none :=
  claim_C5.2.2 windowObs 5 7 (by decide)

/-- Helper for C1: folding `add_sender` over a list of new endpoints appends
them, in order, at the end of the registry. -/
theorem foldl_add_sender (l acc : List Endpoint) :
    l.foldl add_sender acc = acc ++ l := by
  induction l generalizing acc with
  | nil => simp
  | cons a t ih => simp [add_sender, ih]

/-- Claim C1: subscribing N endpoints with `add_sender` registers exactly
those N endpoints in order; one `send_event` then keeps the registry length
(the dead endpoint is not removed) and, pointwise, a connected endpoint
receives exactly one copy of the event appended to its queue while a
disconnected endpoint is left unchanged — independently of the endpoints
iterated before or after it, so a failed send aborts nothing. -/
theorem claim_C1 (eps : List Endpoint) (e : Event) :
    eps.foldl add_sender [] = eps ∧
    (send_event e eps).length = eps.length ∧
    List.Forall₂ (fun ep ep2 =>
        (ep.connected = true →
          ep2 = { ep with received := ep.received ++ [e] } ∧
          ep2.received.count e = ep.received.count e + 1) ∧
        (ep.connected = false → ep2 = ep))
      eps (send_event e eps) := by
  refine ⟨by simp [foldl_add_sender], by simp [send_event], ?_⟩
  rw [send_event, List.forall₂_map_right_iff]
  rw [List.forall₂_same]
  intro ep _
  constructor
  · intro hc
    constructor
    · simp [sendTo, hc]
    · simp [sendTo, hc]
  · intro hc
    simp [sendTo, hc]

/-- Witness for C1: concrete registry of three endpoints with a disconnected
one in the middle; the pointwise delivery relation holds for a concrete
published event. -/
theorem claim_C1_witness :
    List.Forall₂ (fun ep ep2 =>
        (ep.connected = true →
          ep2 = { ep with received := ep.received ++ [Event.EventMove 1 2] } ∧
          ep2.received.count (Event.EventMove 1 2) =
            ep.received.count (Event.EventMove 1 2) + 1) ∧
        (ep.connected = false → ep2 = ep))
      [⟨true, []⟩, ⟨false, []⟩, ⟨true, [Event.EventUp]⟩]
      (send_event (Event.EventMove 1 2)
        [⟨true, []⟩, ⟨false, []⟩, ⟨true, [Event.EventUp]⟩]) :=
  (claim_C1 [⟨true, []⟩, ⟨false, []⟩, ⟨true, [Event.EventUp]⟩]
    (Event.EventMove 1 2)).2.2

/-- Claim C6: when the open succeeds, the operation trace of `load_asset`
contains exactly one close of the native handle, on the success path and on
the empty-buffer path alike, and a null buffer yields the `EmptyBuffer`
failure. -/
theorem claim_C6 (assetManager : String → Option Asset) (filename : String)
    (a : Asset) (h : assetManager filename = some a) :
    ((load_asset assetManager filename).2.count AssetOp.close = 1) ∧
    (a.buff = none →
      (load_asset assetManager filename).1 =
        Except.error AssetError.EmptyBuffer) := by
  unfold load_asset
  rw [h]
  cases hb : a.buff with
  | none => simp [hb, List.count_cons, List.count_nil]
  | some buff => simp [hb, List.count_cons, List.count_nil]

/-- Concrete asset manager for the loader witnesses: one readable asset, one
asset with a null buffer, nothing else. -/
def assetsEx : String → Option Asset := fun n =>
  if n = "present.txt" then some ⟨3, some [10, 20, 30, 40]⟩
  else if n = "hollow.txt" then some ⟨5, none⟩
  else none

/-- Witness for C6 on the concrete asset whose buffer is null. -/
theorem claim_C6_witness :
    ((load_asset assetsEx "hollow.txt").2.count AssetOp.close = 1) ∧
    ((⟨5, none⟩ : Asset).buff = none →
      (load_asset assetsEx "hollow.txt").1 =
        Except.error AssetError.EmptyBuffer) :=
  claim_C6 assetsEx "hollow.txt" ⟨5, none⟩ (by decide)

/-- Claim C7: a successful open with a non-null buffer returns exactly the
first `len` bytes of the backing memory as an owned copy, whose length is the
declared length (given the platform guarantee that the buffer holds at least
`len` bytes). -/
theorem claim_C7 (assetManager : String → Option Asset) (filename : String)
    (a : Asset) (buff : List Nat)
    (h1 : assetManager filename = some a) (h2 : a.buff = some buff)
    (h3 : a.len ≤ buff.length) :
    (load_asset assetManager filename).1 = Except.ok (buff.take a.len) ∧
    (buff.take a.len).length = a.len := by
  constructor
  · unfold load_asset
    rw [h1]
    simp [h2]
  · rw [List.length_take]
    omega

/-- Witness for C7 on the concrete present asset: the first 3 of its 4
backing bytes come back. -/
theorem claim_C7_witness :
    (load_asset assetsEx "present.txt").1 =
      Except.ok ([10, 20, 30, 40].take 3) ∧
    ([(10 : Nat), 20, 30, 40].take 3).length = 3 :=
  claim_C7 assetsEx "present.txt" ⟨3, some [10, 20, 30, 40]⟩ [10, 20, 30, 40]
    (by decide) rfl (by decide)

/-- Claim C8: a failed open returns the `AssetMissing` failure with no result
bytes, and the operation trace is the single failed open — in particular no
close is ever issued. -/
theorem claim_C8 (assetManager : String → Option Asset) (filename : String)
    (h : assetManager filename = none) :
    load_asset assetManager filename =
      (Except.error AssetError.AssetMissing, [AssetOp.openAsset filename]) ∧
    (load_asset assetManager filename).2.count AssetOp.close = 0 := by
  unfold load_asset
  rw [h]
  simp [List.count_cons, List.count_nil]

/-- Witness for C8 on a name with no backing asset. -/
theorem claim_C8_witness :
    load_asset assetsEx "absent.txt" =
      (Except.error AssetError.AssetMissing, [AssetOp.openAsset "absent.txt"]) ∧
    (load_asset assetsEx "absent.txt").2.count AssetOp.close = 0 :=
  claim_C8 assetsEx "absent.txt" (by decide)

/-- Witness for C3 at a concrete pointer-up event (action word 262 masks to
the pointer-up code 6), instantiated at coordinates (5, -7) to show the output
is coordinate-independent. -/
theorem claim_C3_witness :
    inputs_callback (⟨262, 5, -7⟩ : AInputEvent) = ([Event.EventUp], 0) :=
  (claim_C3 ⟨262, 3, 4⟩ (by decide)).1 5 (-7)

/-- Witness for C4 at a concrete plain-motion event (action code 2) with
coordinates (-9, 0). -/
theorem claim_C4_witness :
    inputs_callback (⟨2, -9, 0⟩ : AInputEvent) =
      ([Event.EventMove (-9) 0], 0) := by
  have h := claim_C4 ⟨2, -9, 0⟩ (by decide)
  rw [h]; decide

end AndroidGlue
